import Mathlib

/-!
Verification of the Chord DHT node (`chord_node.py`, Lab4_DHT).

The Python module is shallowly embedded below.  Machine integers are `Nat`
(Python ints are unbounded; ring arithmetic is explicit `% 2 ^ M`).  The
pickled RPC values are the inductive `Val`; `Option Val` models a possibly
absent (`None`) argument.  A running ring is a `Network`: the list of the
node states, addressed by port, and every remote procedure call is a pure
read or an explicit state transformation of that list, exactly following
`call_rpc`/`dispatch_rpc` (a self-addressed call is dispatched locally in
the source; in a static network both reduce to the same lookup).  Loops
that cross nodes (`find_predecessor`, the `update_finger_table`
propagation) take explicit fuel and return `none`/`abnormal` when it runs
out, since nothing in the source bounds them.
-/

set_option maxRecDepth 100000

/-- Bits of the identifier space, from `M = 7` in `chord_node.py`. -/
def M : Nat := 7

/-- Size of the ring, `NODES = 2 ** M`. -/
def NODES : Nat := 2 ^ M

/-- Containment test of `ModRange.__contains__`: the interval `[start, stop)`
modulo `divisor`, built from the three cases of `ModRange.__init__`
(`start < stop`, `stop == 0`, wraparound). -/
def modRangeContains (start stop divisor id : Nat) : Bool :=
  let s := start % divisor
  let t := stop % divisor
  if s < t then decide (s ≤ id ∧ id < t)
  else if t = 0 then decide (s ≤ id ∧ id < divisor)
  else decide ((s ≤ id ∧ id < divisor) ∨ id < t)

/-! ## SHA-1 (`sha1_hash` calls `hashlib.sha1`; the digest is interpreted as
a big-endian integer by `int(hexdigest, 16)`).  Implemented here bit-exactly
so that the identifier derivation of the source can be evaluated. -/

/-- Truncation of a `Nat` to a 32-bit word. -/
def w32 (x : Nat) : Nat := x % 4294967296

/-- Left rotation of a 32-bit word by `n` bits. -/
def rotl (n x : Nat) : Nat := w32 (x * 2 ^ n) + x / 2 ^ (32 - n)

/-- Big-endian bytes of `x`, `n` bytes wide. -/
def natToBytesBE (n x : Nat) : List Nat :=
  (List.range n).map (fun i => x / 2 ^ (8 * (n - 1 - i)) % 256)

/-- Big-endian word from a list of bytes. -/
def bytesToNatBE (bs : List Nat) : Nat :=
  bs.foldl (fun acc b => acc * 256 + b) 0

/-- SHA-1 padding: append `0x80`, zeros to 56 mod 64, and the 64-bit
big-endian bit length. -/
def sha1Pad (msg : List Nat) : List Nat :=
  let l := msg.length
  let zeros := (64 - (l + 9) % 64) % 64
  msg ++ [128] ++ List.replicate zeros 0 ++ natToBytesBE 8 (8 * l)

/-- Split a byte list into 64-byte chunks (the padded length is a multiple
of 64; the fuel is the number of chunks). -/
def sha1Chunks : Nat → List Nat → List (List Nat)
  | 0, _ => []
  | _ + 1, [] => []
  | fuel + 1, bs => bs.take 64 :: sha1Chunks fuel (bs.drop 64)

/-- Message-schedule extension: grow the 16 words to 80. -/
def sha1Extend : Nat → Array Nat → Array Nat
  | 0, w => w
  | n + 1, w =>
    let x := (w.getD (w.size - 3) 0) ^^^ (w.getD (w.size - 8) 0) ^^^
             (w.getD (w.size - 14) 0) ^^^ (w.getD (w.size - 16) 0)
    sha1Extend n (w.push (rotl 1 x))

/-- The 80 SHA-1 rounds over one chunk's schedule. -/
def sha1Rounds : Nat → Nat → Nat × Nat × Nat × Nat × Nat → Array Nat →
    Nat × Nat × Nat × Nat × Nat
  | 0, _, st, _ => st
  | n + 1, i, (a, b, c, d, e), w =>
    let f :=
      if i < 20 then (b &&& c) ||| ((b ^^^ 4294967295) &&& d)
      else if i < 40 then b ^^^ c ^^^ d
      else if i < 60 then (b &&& c) ||| (b &&& d) ||| (c &&& d)
      else b ^^^ c ^^^ d
    let k :=
      if i < 20 then 1518500249
      else if i < 40 then 1859775393
      else if i < 60 then 2400959708
      else 3395469782
    let t := w32 (rotl 5 a + f + e + k + w.getD i 0)
    sha1Rounds n (i + 1) (t, a, rotl 30 b, c, d) w

/-- Fold one 64-byte chunk into the running hash state. -/
def sha1Chunk (h : Nat × Nat × Nat × Nat × Nat) (chunk : List Nat) :
    Nat × Nat × Nat × Nat × Nat :=
  let w0 := (Array.range 16).map (fun i => bytesToNatBE ((chunk.drop (4 * i)).take 4))
  let w := sha1Extend 64 w0
  let (h0, h1, h2, h3, h4) := h
  let (a, b, c, d, e) := sha1Rounds 80 0 (h0, h1, h2, h3, h4) w
  (w32 (h0 + a), w32 (h1 + b), w32 (h2 + c), w32 (h3 + d), w32 (h4 + e))

/-- SHA-1 digest of a byte list, as the big-endian 160-bit integer. -/
def sha1Bytes (msg : List Nat) : Nat :=
  let padded := sha1Pad msg
  let chunks := sha1Chunks (padded.length / 64 + 1) padded
  let (h0, h1, h2, h3, h4) :=
    chunks.foldl sha1Chunk (1732584193, 4023233417, 2562383102, 271733878, 3285377520)
  (((h0 * 4294967296 + h1) * 4294967296 + h2) * 4294967296 + h3) * 4294967296 + h4

/-- `sha1_hash(id_string)` from the source: SHA-1 of the encoded string,
read back as an integer.  The strings in play are ASCII, so the UTF-8
encoding is the codepoint list. -/
def sha1_hash (s : String) : Nat := sha1Bytes (s.data.map Char.toNat)

/-! ## Identifier derivation (`ChordNode.__init__` and
`ChordNode.initialize_empty_finger_table`). -/

/-- NodeId a node derives for itself: `initialize_empty_finger_table` builds
`endpoint_string = '127.0.0.0' + str(self.port_number)` (no separator) and
sets `self.node = sha1_hash(endpoint_string) % (2 ** M)`. -/
def derive_self_node (port : Nat) : Nat :=
  sha1_hash ("127.0.0.0" ++ toString port) % 2 ^ M

/-- NodeId a joining node computes for its bootstrap peer: `__init__` builds
`endpoint_string = '127.0.0.0 ' + str(port_number)` (with a space) and sets
`node_p = sha1_hash(endpoint_string) % 2 ** M`. -/
def derive_peer_node (port : Nat) : Nat :=
  sha1_hash ("127.0.0.0 " ++ toString port) % 2 ^ M

/-! ## Data model: node references, RPC values, node state, network. -/

/-- The `{'number': ..., 'port': ...}` dictionary the nodes exchange. -/
structure NodeRef where
  number : Nat
  port : Nat
deriving DecidableEq

/-- A pickled RPC value: Python ints, strings, CSV rows (lists of strings),
node-reference dictionaries and booleans are the only values the module
sends.  A possibly-`None` argument is `Option Val`. -/
inductive Val where
  | num (n : Nat)
  | str (s : String)
  | row (r : List String)
  | ref (r : NodeRef)
  | bool (b : Bool)
deriving DecidableEq

/-- One row of the finger table (`FingerEntry`): `start` and `next_start`
follow `FingerEntry.__init__`; `successor` is the cached responsible node.
`interval` is `ModRange start next_start`, recovered by `modRangeContains`. -/
structure FingerEntry where
  start : Nat
  next_start : Nat
  successor : NodeRef
deriving DecidableEq

/-- `FingerEntry(n, k)` with its successor already assigned:
`start = (n + 2^(k-1)) % NODES`, `next_start = (n + 2^k) % NODES` for
`k < M`, else `n`. -/
def mkFinger (n k : Nat) (succ : NodeRef) : FingerEntry :=
  { start := (n + 2 ^ (k - 1)) % NODES
    next_start := if k < M then (n + 2 ^ k) % NODES else n
    successor := succ }

/-- Keys of the local `keys` dictionary: the integer SHA-1 digests used by
`save_data`/`query_data`, plus `none` for Python's `None` (which
`dispatch_rpc` will happily store under when `put_key` gets no argument). -/
abbrev KeyT : Type := Option Nat

/-- Local state of one `ChordNode`: ring id `node`, listening `port`, the
1-indexed finger table (indices outside `1..M` are never dereferenced by the
modelled code paths; Python would raise), the `predecessor` attribute (any
pickled value the last `update_your_predecessor` stored, `none` before
join), and the `keys` dictionary (`none` = absent or stored `None`). -/
structure NodeState where
  node : Nat
  port : Nat
  fingers : Nat → FingerEntry
  predecessor : Option Val
  keys : KeyT → Option Val

/-- Successor entry of finger `i` (`self.finger_table[i].successor`). -/
def fingerSucc (st : NodeState) (i : Nat) : NodeRef := (st.fingers i).successor

/-- A running ring: the states of all live nodes.  `call_rpc` addresses a
node by port (a self-addressed call short-circuits to local dispatch; in
this static model both are the lookup below). -/
def Network : Type := List NodeState

/-- Find the node listening on `port`. -/
def netLookup (net : Network) (port : Nat) : Option NodeState :=
  net.find? (fun st => st.port == port)

/-- Replace the state of the node listening on `port` (a remote call mutated
that node's attributes). -/
def netSet (net : Network) (port : Nat) (st' : NodeState) : Network :=
  net.map (fun st => if st.port == port then st' else st)

/-! ## Routing (`closest_preceding_finger`, `find_predecessor`,
`find_successor`). -/

/-- The scan `for i in range(M, 0, -1)` of `closest_preceding_finger`:
descend from finger `i`, returning the first successor whose number is in
`ModRange(self.node + 1, id, NODES)`; at `i = 0` the loop is exhausted and
the node returns its own reference. -/
def closest_preceding_finger_aux (st : NodeState) (id : Nat) : Nat → NodeRef
  | 0 => ⟨st.node, st.port⟩
  | i + 1 =>
    if modRangeContains (st.node + 1) id NODES (fingerSucc st (i + 1)).number then
      fingerSucc st (i + 1)
    else closest_preceding_finger_aux st id i

/-- `ChordNode.closest_preceding_finger(id)`. -/
def closest_preceding_finger (st : NodeState) (id : Nat) : NodeRef :=
  closest_preceding_finger_aux st id M

/-- The `while` loop of `ChordNode.find_predecessor`, exactly as written:
the loop state is `(node_p_number, node_p_successor['number'], node_p_port)`.
On a failed test the source runs, in this order,
`node_p = call_rpc(node_p_port, 'closest_preceding_finger', id)`, then
`node_p_successor = call_rpc(node_p_port, 'successor')` — still against the
OLD `node_p_port` — and only then `node_p_port = node_p['port']`.  So the
next test pairs the new node's number with the PREVIOUS node's successor. -/
def fpCodeLoop (net : Network) (id : Nat) :
    Nat → Nat → Nat → Nat → Option NodeRef
  | 0, _, _, _ => none
  | fuel + 1, num, succNum, port =>
    if modRangeContains (num + 1) (succNum + 1) NODES id then some ⟨num, port⟩
    else
      match netLookup net port with
      | none => none
      | some cur =>
        let np := closest_preceding_finger cur id
        fpCodeLoop net id fuel np.number (fingerSucc cur 1).number np.port

/-- `ChordNode.find_predecessor(id)` as the source executes it, started on
the node listening at `selfPort`. -/
def find_predecessor_code (net : Network) (selfPort id fuel : Nat) :
    Option NodeRef :=
  match netLookup net selfPort with
  | none => none
  | some st => fpCodeLoop net id fuel st.node (fingerSucc st 1).number st.port

/-- Modelled from the spec (claim C1's loop): the same iteration but the
test is re-run against the CURRENT node's own successor — `current` moves to
`closest_preceding_finger` and the interval is
`(current.id, current.successor.id]`. -/
def fpSpecLoop (net : Network) (id : Nat) : Nat → NodeRef → Option NodeRef
  | 0, _ => none
  | fuel + 1, cur =>
    match netLookup net cur.port with
    | none => none
    | some st =>
      if modRangeContains (cur.number + 1) ((fingerSucc st 1).number + 1) NODES id then
        some cur
      else fpSpecLoop net id fuel (closest_preceding_finger st id)

/-- Modelled from the spec: `find_predecessor` as claim C1 states it. -/
def find_predecessor_spec (net : Network) (selfPort id fuel : Nat) :
    Option NodeRef :=
  match netLookup net selfPort with
  | none => none
  | some st => fpSpecLoop net id fuel ⟨st.node, st.port⟩

/-- `ChordNode.find_successor(id)`: `successor` of the node returned by
`find_predecessor` (fetched by a `successor` RPC against its port). -/
def find_successor_code (net : Network) (selfPort id fuel : Nat) :
    Option NodeRef :=
  match find_predecessor_code net selfPort id fuel with
  | none => none
  | some np =>
    match netLookup net np.port with
    | none => none
    | some st => some (fingerSucc st 1)

/-! ## Key store (`put_key`, `get_key`) and the data operations
(`save_data`, `query_data`). -/

/-- `ChordNode.put_key(key_id, key_value)`: `self.keys[key_id] = key_value`
and return `True`.  A Python `None` value is stored; through `get_key` it is
indistinguishable from an absent key's `None` result, so it is modelled as
`none`. -/
def put_key (st : NodeState) (key_id : KeyT) (key_value : Option Val) :
    NodeState × Bool :=
  ({ st with keys := Function.update st.keys key_id key_value }, true)

/-- `ChordNode.get_key(key_id)`: the stored row, or `None` if the dictionary
has no pair for `key_id` (a read; the dictionary is not touched). -/
def get_key (st : NodeState) (key_id : KeyT) : Option Val := st.keys key_id

/-- Result of `query_data`: the row, the string `'Data is not available.'`
for a `None` row, or the string `'Query failed!'` for a non-list row. -/
inductive QueryResult where
  | found (r : List String)
  | notAvailable
  | failed
deriving DecidableEq

/-- `ChordNode.save_data(input)`: key the row by column 0 concatenated with
column 3, route `bucket_id = data_id % 2 ** M` through `find_successor` on
this node, `put_key` the full `data_id` at the responsible node, and report.
A row shorter than 4 entries would raise `IndexError` in Python (`none`
here); `none` also covers exhausted fuel inside the routing. -/
def save_data (net : Network) (selfPort : Nat) (input : List String)
    (fuel : Nat) : Option (String × Network) :=
  if input.length < 4 then none
  else
    let player_id := input.getD 0 ""
    let year := input.getD 3 ""
    let data_id := sha1_hash (player_id ++ year)
    let bucket_id := data_id % 2 ^ M
    match find_successor_code net selfPort bucket_id fuel with
    | none => none
    | some responsible =>
      match netLookup net responsible.port with
      | none => none
      | some owner =>
        let res := put_key owner (some data_id) (some (Val.row input))
        if res.2 then
          some ("Node " ++ toString responsible.number ++ " saved the row",
                netSet net responsible.port res.1)
        else some ("Populate failed", netSet net responsible.port res.1)

/-- `ChordNode.query_data(player_id, year)`: derive the same `data_id`,
route the bucket through `find_successor` on this node, and `get_key` at the
responsible node.  A pure read of the network. -/
def query_data (net : Network) (selfPort : Nat) (player_id year : String)
    (fuel : Nat) : Option QueryResult :=
  let data_id := sha1_hash (player_id ++ year)
  let bucket_id := data_id % 2 ^ M
  match find_successor_code net selfPort bucket_id fuel with
  | none => none
  | some responsible =>
    match netLookup net responsible.port with
    | none => none
    | some owner =>
      match get_key owner (some data_id) with
      | none => some QueryResult.notAvailable
      | some (Val.row r) => some (QueryResult.found r)
      | some _ => some QueryResult.failed

/-! ## Finger-table maintenance (`update_finger_table`). -/

/-- The RPC a node issues while propagating an update:
`call_rpc(p['port'], 'update_finger_table', s, i)`. -/
structure SentRpc where
  port : Nat
  s : NodeRef
  i : Nat
deriving DecidableEq

/-- Finger `i`'s successor replaced by `s`, everything else unchanged. -/
def replaceFinger (st : NodeState) (i : Nat) (s : NodeRef) : NodeState :=
  { st with
    fingers := fun j =>
      if j = i then { st.fingers j with successor := s } else st.fingers j }

/-- One local step of `ChordNode.update_finger_table(s, i)`: if
`finger_table[i].start != finger_table[i].successor['number']` and
`s['number'] in ModRange(finger_table[i].start,
finger_table[i].successor['number'], NODES)`, replace the successor and send
the same update to the predecessor; otherwise do nothing.  `none` models the
exception Python raises when the condition holds but `self.predecessor` is
not a node dictionary (`None['port']`). -/
def update_finger_table_local (st : NodeState) (s : NodeRef) (i : Nat) :
    Option (NodeState × List SentRpc) :=
  if (st.fingers i).start ≠ (st.fingers i).successor.number ∧
      modRangeContains (st.fingers i).start (st.fingers i).successor.number
        NODES s.number then
    match st.predecessor with
    | some (Val.ref p) => some (replaceFinger st i s, [⟨p.port, s, i⟩])
    | _ => none
  else some (st, [])

/-- The backward propagation chain the `update_finger_table` RPCs form: run
the local step at `port`, apply it to the network, and follow the issued
RPC; stops when a node leaves its table unchanged. -/
def update_finger_table_chain (net : Network) (port : Nat) (s : NodeRef)
    (i : Nat) : Nat → Option Network
  | 0 => none
  | fuel + 1 =>
    match netLookup net port with
    | none => none
    | some st =>
      match update_finger_table_local st s i with
      | none => none
      | some (st', rpcs) =>
        let net' := netSet net port st'
        match rpcs with
        | [] => some net'
        | r :: _ => update_finger_table_chain net' r.port r.s r.i fuel

/-! ## RPC dispatch (`ChordNode.dispatch_rpc`). -/

/-- How one dispatch ends.  `ret v` is a normal return (`v = none` is
Python's implicit `None`).  `exits` is the explicit `exit()` the source
calls on a missing required argument: the handler dies and no response
reaches the caller.  `abnormal` covers an uncaught exception escaping
`dispatch_rpc` (e.g. a `TypeError` from subscripting an int) and, in this
model only, exhausted fuel. -/
inductive Outcome where
  | ret (v : Option Val)
  | exits
  | abnormal
deriving DecidableEq

/-- The dictionary key an argument is used as by `put_key`/`get_key`:
Python's `None` is a valid key; an int is the digest.  String keys (legal in
Python, never sent by any caller in the repository) and unhashable values
are outside the model (`none`, mapped to `abnormal`). -/
def keyOfArg : Option Val → Option KeyT
  | none => some none
  | some (Val.num n) => some (some n)
  | some _ => none

/-- The string `str(x)` produces for the query fields: the callers send
strings (and ints convert via `toString`); other values are outside the
model. -/
def pyStrOf : Val → Option String
  | Val.str s => some s
  | Val.num n => some (toString n)
  | _ => none

/-- `ChordNode.dispatch_rpc(method, arg1, arg2)` for the node `st` (the
entry of `net` at `st.port`).  Branches follow the source in order; each
`None`-argument check that prints and calls `exit()` becomes `Outcome.exits`
with the network untouched.  The `find_predecessor` branch subscripts
`arg1['number']`: an int or missing argument raises, and the `else` branch
(`self.find_predecessor(arg1)` with a dictionary as `id`) also raises, since
the first `closest_preceding_finger` call builds
`ModRange(self.node + 1, arg1, NODES)` and `dict % int` is a `TypeError`;
both are `abnormal`.  Ill-typed arguments in the remaining branches raise in
Python and are likewise `abnormal`. -/
def dispatch_rpc (net : Network) (st : NodeState) (method : String)
    (arg1 arg2 : Option Val) (fuel : Nat) : Outcome × Network :=
  if method = "successor" then
    (Outcome.ret (some (Val.ref (fingerSucc st 1))), net)
  else if method = "update_finger_table" then
    match arg1 with
    | none => (Outcome.exits, net)
    | some v1 =>
      match arg2 with
      | none => (Outcome.exits, net)
      | some v2 =>
        match v1, v2 with
        | Val.ref s, Val.num i =>
          if 1 ≤ i ∧ i ≤ M then
            match update_finger_table_chain net st.port s i fuel with
            | some net' => (Outcome.ret none, net')
            | none => (Outcome.abnormal, net)
          else (Outcome.abnormal, net)
        | _, _ => (Outcome.abnormal, net)
  else if method = "find_predecessor" then
    match arg1 with
    | some (Val.ref r) =>
      if r.number = st.node then (Outcome.ret st.predecessor, net)
      else (Outcome.abnormal, net)
    | _ => (Outcome.abnormal, net)
  else if method = "update_your_predecessor" then
    match arg1 with
    | none => (Outcome.exits, net)
    | some v =>
      (Outcome.ret none, netSet net st.port { st with predecessor := some v })
  else if method = "find_successor" then
    match arg1 with
    | none => (Outcome.exits, net)
    | some (Val.num id) =>
      match find_successor_code net st.port id fuel with
      | some r => (Outcome.ret (some (Val.ref r)), net)
      | none => (Outcome.abnormal, net)
    | some _ => (Outcome.abnormal, net)
  else if method = "closest_preceding_finger" then
    match arg1 with
    | none => (Outcome.exits, net)
    | some (Val.num id) =>
      (Outcome.ret (some (Val.ref (closest_preceding_finger st id))), net)
    | some _ => (Outcome.abnormal, net)
  else if method = "populate" then
    match arg1 with
    | none =>
      (Outcome.ret (some (Val.str "The row to populate is either missing or incorrect.")), net)
    | some (Val.row r) =>
      match save_data net st.port r fuel with
      | some (msg, net') => (Outcome.ret (some (Val.str msg)), net')
      | none => (Outcome.abnormal, net)
    | some _ => (Outcome.abnormal, net)
  else if method = "put_key" then
    match keyOfArg arg1 with
    | some k =>
      let res := put_key st k arg2
      (Outcome.ret (some (Val.bool res.2)), netSet net st.port res.1)
    | none => (Outcome.abnormal, net)
  else if method = "query" then
    match arg1 with
    | none =>
      (Outcome.ret (some (Val.str "Pass the player id and year to find the row.")), net)
    | some a =>
      match arg2 with
      | none =>
        (Outcome.ret (some (Val.str "Pass the player id and year to find the row.")), net)
      | some b =>
      match pyStrOf a, pyStrOf b with
      | some pid, some year =>
        match query_data net st.port pid year fuel with
        | some (QueryResult.found r) => (Outcome.ret (some (Val.row r)), net)
        | some QueryResult.notAvailable =>
          (Outcome.ret (some (Val.str "Data is not available.")), net)
        | some QueryResult.failed =>
          (Outcome.ret (some (Val.str "Query failed!")), net)
        | none => (Outcome.abnormal, net)
      | _, _ => (Outcome.abnormal, net)
  else if method = "get_key" then
    match keyOfArg arg1 with
    | some k => (Outcome.ret (get_key st k), net)
    | none => (Outcome.abnormal, net)
  else (Outcome.ret none, net)

/-! ## Concrete rings used by the witnesses and counterexamples.

`net6` is a stable six-node ring with identifiers 10, 30, 90, 94, 98, 102
(ports chosen equal to the identifiers); every finger table holds the
correct Chord successors for those identifiers and every predecessor is the
true ring predecessor. -/

/-- Finger table of a `net6` node: the seven successors for fingers 1..7,
with `start`/`next_start` from the `FingerEntry` formulas.  Indices outside
`1..M` are never dereferenced (Python raises); they get a dummy entry. -/
def fingersOf (n : Nat) (succs : List Nat) : Nat → FingerEntry :=
  fun i =>
    match succs.get? (i - 1) with
    | some s => mkFinger n i ⟨s, s⟩
    | none => ⟨0, 0, ⟨0, 0⟩⟩

/-- Node 10 of `net6`: fingers start at 11, 12, 14, 18, 26, 42, 74. -/
def node10 : NodeState :=
  { node := 10, port := 10, fingers := fingersOf 10 [30, 30, 30, 30, 30, 90, 90]
    predecessor := some (Val.ref ⟨102, 102⟩), keys := fun _ => none }

/-- Node 30 of `net6`. -/
def node30 : NodeState :=
  { node := 30, port := 30, fingers := fingersOf 30 [90, 90, 90, 90, 90, 90, 94]
    predecessor := some (Val.ref ⟨10, 10⟩), keys := fun _ => none }

/-- Node 90 of `net6`. -/
def node90 : NodeState :=
  { node := 90, port := 90, fingers := fingersOf 90 [94, 94, 94, 98, 10, 10, 30]
    predecessor := some (Val.ref ⟨30, 30⟩), keys := fun _ => none }

/-- Node 94 of `net6`. -/
def node94 : NodeState :=
  { node := 94, port := 94, fingers := fingersOf 94 [98, 98, 98, 102, 10, 10, 30]
    predecessor := some (Val.ref ⟨90, 90⟩), keys := fun _ => none }

/-- Node 98 of `net6`. -/
def node98 : NodeState :=
  { node := 98, port := 98, fingers := fingersOf 98 [102, 102, 102, 10, 10, 10, 90]
    predecessor := some (Val.ref ⟨94, 94⟩), keys := fun _ => none }

/-- Node 102 of `net6`. -/
def node102 : NodeState :=
  { node := 102, port := 102, fingers := fingersOf 102 [10, 10, 10, 10, 10, 10, 90]
    predecessor := some (Val.ref ⟨98, 98⟩), keys := fun _ => none }

/-- The six-node ring. -/
def net6 : Network := [node10, node30, node90, node94, node98, node102]

/-- A single-node ring (node 20): after a first-node join every finger
successor and the predecessor point to the node itself. -/
def node20 : NodeState :=
  { node := 20, port := 20, fingers := fingersOf 20 [20, 20, 20, 20, 20, 20, 20]
    predecessor := some (Val.ref ⟨20, 20⟩), keys := fun _ => none }

/-- The one-node network. -/
def net1 : Network := [node20]

/-- The row used by the round-trip counterexample: its key string is
`'82' + '2016' = '822016'`, whose SHA-1 digest lies in ring bucket 103. -/
def row82 : List String := ["82", "x", "y", "2016"]

/-- The ring after the round-trip counterexample's populate call was served
by node 10 (the row landed on node 94). -/
def net6saved : Network :=
  match save_data net6 10 row82 5 with
  | some p => p.2
  | none => net6

/-- A degenerate-lookup node for claim C7: identifier 0, and every finger's
successor is the (hypothetical) node 5. -/
def nodeDeg : NodeState :=
  { node := 0, port := 0, fingers := fingersOf 0 [5, 5, 5, 5, 5, 5, 5]
    predecessor := none, keys := fun _ => none }

/-! ## Spec-side comparison definitions. -/

/-- Modelled from the spec (claim C5's wording): membership of `x` in the
wraparound interval `[a, b)` on the ring of `NODES` slots — the cyclic
distance from `a` to `x` is smaller than the cyclic distance from `a` to
`b`; `[a, a)` is empty. -/
def inCyclic (a b x : Nat) : Prop :=
  (x + NODES - a) % NODES < (b + NODES - a) % NODES

instance (a b x : Nat) : Decidable (inCyclic a b x) :=
  decidable_of_iff
    ((x + NODES - a) % NODES < (b + NODES - a) % NODES) Iff.rfl

/-- Modelled from the spec (claim C7's wording): `x` lies strictly between
`a` and `b` on the ring, exclusive on both ends, with wraparound — nothing
lies strictly between `a` and `a + 1`, and nothing between `a` and `a`. -/
def strictBetween (a b x : Nat) : Prop :=
  0 < (x + NODES - a) % NODES ∧
    (x + NODES - a) % NODES < (b + NODES - a) % NODES

instance (a b x : Nat) : Decidable (strictBetween a b x) :=
  decidable_of_iff
    (0 < (x + NODES - a) % NODES ∧
      (x + NODES - a) % NODES < (b + NODES - a) % NODES) Iff.rfl

/-- Modelled from the spec (claim C7): the same highest-index-first scan,
but with the test `finger.successor.number` strictly between `self.id` and
`id`. -/
def closest_preceding_finger_spec_aux (st : NodeState) (id : Nat) :
    Nat → NodeRef
  | 0 => ⟨st.node, st.port⟩
  | i + 1 =>
    if strictBetween st.node id (fingerSucc st (i + 1)).number then
      fingerSucc st (i + 1)
    else closest_preceding_finger_spec_aux st id i

/-- Modelled from the spec: `closest_preceding_finger` as claim C7 states
it. -/
def closest_preceding_finger_spec (st : NodeState) (id : Nat) : NodeRef :=
  closest_preceding_finger_spec_aux st id M

/-! # Theorems -/

/-- SHA-1 sanity anchor against the published test vector
(`sha1('abc') = a9993e364706816aba3e25717850c26c9cd0d89d`). -/
theorem sha1_hash_abc :
    sha1_hash "abc" = 0xa9993e364706816aba3e25717850c26c9cd0d89d := by decide

/-- Claim C6: ModRange containment of `id` in `[start, stop)` modulo `2^M`
is ordinary range containment when `start < stop`, membership in
`[start, 2^M)` when `stop = 0`, and membership in
`[start, 2^M) ∪ [0, stop)` otherwise; and the interval `(97, 2)` modulo 100
contains 99 and 0 but neither 2 nor 50. -/
theorem chord_modrange_containment (start stop id : Nat)
    (hs : start < NODES) (ht : stop < NODES) (_hid : id < NODES) :
    ((modRangeContains start stop NODES id = true) ↔
      (if start < stop then start ≤ id ∧ id < stop
       else if stop = 0 then start ≤ id ∧ id < NODES
       else (start ≤ id ∧ id < NODES) ∨ id < stop))
    ∧ modRangeContains 97 2 100 99 = true
    ∧ modRangeContains 97 2 100 0 = true
    ∧ modRangeContains 97 2 100 2 = false
    ∧ modRangeContains 97 2 100 50 = false := by
  refine ⟨?_, by decide, by decide, by decide, by decide⟩
  simp only [modRangeContains, Nat.mod_eq_of_lt hs, Nat.mod_eq_of_lt ht]
  split_ifs <;> simp [decide_eq_true_eq]

/-- Witness for C6 at `start = 5`, `stop = 3`, `id = 7`. -/
theorem chord_modrange_containment_witness :
    ((modRangeContains 5 3 NODES 7 = true) ↔
      (if (5 : Nat) < 3 then 5 ≤ 7 ∧ 7 < 3
       else if (3 : Nat) = 0 then 5 ≤ 7 ∧ 7 < NODES
       else ((5 : Nat) ≤ 7 ∧ 7 < NODES) ∨ 7 < 3))
    ∧ modRangeContains 97 2 100 99 = true
    ∧ modRangeContains 97 2 100 0 = true
    ∧ modRangeContains 97 2 100 2 = false
    ∧ modRangeContains 97 2 100 50 = false :=
  chord_modrange_containment 5 3 7 (by decide) (by decide) (by decide)

/-- Claim C10: `put_key` returns `True`, a following `get_key` on the same
KeyId returns the stored value (silently replacing any previous one), and
every other KeyId is unaffected. -/
theorem chord_put_key_get_key_frame (st : NodeState) (k : Nat) (v : Val) :
    (put_key st (some k) (some v)).2 = true
    ∧ get_key (put_key st (some k) (some v)).1 (some k) = some v
    ∧ ∀ k' : KeyT, k' ≠ some k →
        get_key (put_key st (some k) (some v)).1 k' = get_key st k' := by
  refine ⟨rfl, ?_, fun k' hk => ?_⟩
  · simp [get_key, put_key, Function.update_apply]
  · simp [get_key, put_key, Function.update_apply, hk]

/-- Witness for C10 on a concrete store: key 1 gets the row, key 2 keeps
its old binding. -/
theorem chord_put_key_get_key_frame_witness :
    (put_key node20 (some 1) (some (Val.num 7))).2 = true
    ∧ get_key (put_key node20 (some 1) (some (Val.num 7))).1 (some 1) =
        some (Val.num 7)
    ∧ get_key (put_key node20 (some 1) (some (Val.num 7))).1 (some 2) =
        get_key node20 (some 2) :=
  ⟨(chord_put_key_get_key_frame node20 1 (Val.num 7)).1,
   (chord_put_key_get_key_frame node20 1 (Val.num 7)).2.1,
   (chord_put_key_get_key_frame node20 1 (Val.num 7)).2.2 (some 2) (by decide)⟩

/-- Claim C9: if the node that `find_successor` routes the key's bucket to
has no entry for the KeyId, `get_key` yields the absent result `none`
(distinct by construction from every stored `some` row) and `query_data`
returns the defined not-found message, not an error; the lookup path reads
and never writes the key store. -/
theorem chord_absent_key_not_found (net : Network) (selfPort fuel : Nat)
    (pid year : String) (r : NodeRef) (owner : NodeState)
    (hfs : find_successor_code net selfPort
      (sha1_hash (pid ++ year) % 2 ^ M) fuel = some r)
    (hlk : netLookup net r.port = some owner)
    (habs : owner.keys (some (sha1_hash (pid ++ year))) = none) :
    get_key owner (some (sha1_hash (pid ++ year))) = none
    ∧ query_data net selfPort pid year fuel = some QueryResult.notAvailable
    ∧ ∀ row, QueryResult.notAvailable ≠ QueryResult.found row := by
  refine ⟨habs, ?_, fun row h => by cases h⟩
  simp only [query_data, hfs, hlk, get_key, habs]

/-- Witness for C9: querying an untouched one-node ring. -/
theorem chord_absent_key_not_found_witness :
    get_key node20 (some (sha1_hash ("p" ++ "q"))) = none
    ∧ query_data net1 20 "p" "q" 2 = some QueryResult.notAvailable
    ∧ ∀ row, QueryResult.notAvailable ≠ QueryResult.found row :=
  chord_absent_key_not_found net1 20 2 "p" "q" ⟨20, 20⟩ node20
    (by decide) rfl rfl

/-- The guarded condition of `update_finger_table` — `start` differs from
the current successor's number AND `s` is in `ModRange(start, successor)` —
is exactly cyclic membership of `s` in the wraparound interval
`[start, successor)`: the explicit inequality guard compensates for
`ModRange(a, a)` denoting the full ring rather than the empty interval. -/
theorem update_cond_iff_inCyclic (a b x : Nat)
    (ha : a < NODES) (hb : b < NODES) (hx : x < NODES) :
    (a ≠ b ∧ modRangeContains a b NODES x = true) ↔ inCyclic a b x := by
  have ha' : a < 128 := ha
  have hb' : b < 128 := hb
  have hx' : x < 128 := hx
  have hN : NODES = 128 := rfl
  simp only [modRangeContains, inCyclic, hN]
  split_ifs <;> simp [decide_eq_true_eq] <;> omega

/-- Claim C5: `update_finger_table(s, i)` replaces `fingers[i].successor`
with `s` exactly when `s.number` lies in the wraparound interval
`[fingers[i].start, fingers[i].successor.id)`, and exactly then it issues
the one propagation RPC `update_finger_table(s, i)` to the local
predecessor; otherwise state and outbound traffic are untouched. -/
theorem chord_update_finger_table_exact (st : NodeState) (s : NodeRef)
    (i : Nat) (p : NodeRef)
    (hp : st.predecessor = some (Val.ref p))
    (h1 : (st.fingers i).start < NODES)
    (h2 : (st.fingers i).successor.number < NODES)
    (h3 : s.number < NODES) :
    update_finger_table_local st s i =
      some
        (if inCyclic (st.fingers i).start (st.fingers i).successor.number
            s.number
         then (replaceFinger st i s, [⟨p.port, s, i⟩])
         else (st, [])) := by
  have hiff := update_cond_iff_inCyclic (st.fingers i).start
    (st.fingers i).successor.number s.number h1 h2 h3
  unfold update_finger_table_local
  by_cases h : inCyclic (st.fingers i).start (st.fingers i).successor.number
      s.number
  · rw [if_pos (hiff.mpr h), hp, if_pos h]
  · rw [if_neg (fun hc => h (hiff.mp hc)), if_neg h]

/-- Witness for C5 on node 98 of the six-node ring: node 100 falls in
finger 1's interval `[99, 102)`, so the entry is replaced and the update is
forwarded to predecessor 94. -/
theorem chord_update_finger_table_exact_witness :
    update_finger_table_local node98 ⟨100, 100⟩ 1 =
      some
        (if inCyclic (node98.fingers 1).start
            (node98.fingers 1).successor.number 100
         then (replaceFinger node98 1 ⟨100, 100⟩, [⟨94, ⟨100, 100⟩, 1⟩])
         else (node98, [])) :=
  chord_update_finger_table_exact node98 ⟨100, 100⟩ 1 ⟨94, 94⟩ rfl
    (by decide) (by decide) (by decide)

/-- Away from the two degenerate targets `b = a` and `b = a + 1 (mod 2^M)`,
the scan interval `ModRange(a + 1, b)` of `closest_preceding_finger` is
exactly "strictly between `a` and `b`"; at the degenerate targets the
ModRange denotes (almost) the full ring instead of the empty set. -/
theorem cpf_test_iff_strictBetween (a b x : Nat)
    (ha : a < NODES) (hb : b < NODES) (hx : x < NODES)
    (h1 : b ≠ a) (h2 : b ≠ (a + 1) % NODES) :
    (modRangeContains (a + 1) b NODES x = true) ↔ strictBetween a b x := by
  have ha' : a < 128 := ha
  have hb' : b < 128 := hb
  have hx' : x < 128 := hx
  have h2' : b ≠ (a + 1) % 128 := h2
  have hN : NODES = 128 := rfl
  simp only [modRangeContains, strictBetween, hN]
  split_ifs <;> simp [decide_eq_true_eq] <;> omega

/-- The two scans agree index by index under the non-degeneracy
hypotheses. -/
theorem cpf_aux_eq_spec_aux (st : NodeState) (id : Nat)
    (hn : st.node < NODES) (hid : id < NODES)
    (h1 : id ≠ st.node) (h2 : id ≠ (st.node + 1) % NODES) :
    ∀ k, (∀ j, j ≤ k → (fingerSucc st j).number < NODES) →
      closest_preceding_finger_aux st id k =
        closest_preceding_finger_spec_aux st id k := by
  intro k
  induction k with
  | zero => intro _; rfl
  | succ n ih =>
    intro hf
    simp only [closest_preceding_finger_aux,
      closest_preceding_finger_spec_aux]
    rw [ih (fun j hj => hf j (Nat.le_succ_of_le hj))]
    exact if_congr
      (cpf_test_iff_strictBetween st.node id (fingerSucc st (n + 1)).number
        hn hid (hf (n + 1) le_rfl) h1 h2) rfl rfl

/-- Claim C7 (amended): whenever the target `id` is neither `self.id` nor
`self.id + 1 (mod 2^M)`, `closest_preceding_finger(id)` returns the
successor of the first finger (scanning `M` down to `1`) whose identifier
lies strictly between `self.id` and `id`, and the node's own reference when
none qualifies.  (At the two excluded targets the code's scan interval is
the whole ring, see `chord_cpf_degenerate_cex`.) -/
theorem chord_cpf_matches_strict_between (st : NodeState) (id : Nat)
    (hn : st.node < NODES) (hid : id < NODES)
    (hf : ∀ j, j ≤ M → (fingerSucc st j).number < NODES)
    (h1 : id ≠ st.node) (h2 : id ≠ (st.node + 1) % NODES) :
    closest_preceding_finger st id = closest_preceding_finger_spec st id :=
  cpf_aux_eq_spec_aux st id hn hid h1 h2 M hf

/-- Witness for C7's amended claim: node 10 of the six-node ring looking
for the fingers preceding 103. -/
theorem chord_cpf_matches_strict_between_witness :
    closest_preceding_finger node10 103 =
      closest_preceding_finger_spec node10 103 :=
  chord_cpf_matches_strict_between node10 103 (by decide) (by decide)
    (by decide) (by decide) (by decide)

/-- Counterexample to C7 as stated: on a node with identifier 0 whose every
finger successor is node 5, the scan for target `id = 1` returns node 5,
although nothing lies strictly between 0 and 1 on the ring and node 5 is
not the node's own reference — `ModRange(1, 1)` is the full ring, not the
empty interval. -/
theorem chord_cpf_degenerate_cex :
    closest_preceding_finger nodeDeg 1 = ⟨5, 5⟩
    ∧ ¬ strictBetween 0 1 5
    ∧ (⟨5, 5⟩ : NodeRef) ≠ ⟨nodeDeg.node, nodeDeg.port⟩ := by
  refine ⟨by decide, by decide, by decide⟩

/-- Claim C1, evaluated at the failing input: in the six-node ring,
`find_predecessor(103)` started on node 10 returns node 90, but 103 does
not lie in node 90's interval `(90, successor 94]` — the loop accepted it
because the successor it re-tested against was fetched from the node it had
just advanced FROM (`node_p_port` is updated only after the `successor`
RPC).  The loop as the claim states it (re-testing against the new current
node's own successor) returns node 102, whose interval `(102, 10]` does
contain 103. -/
theorem chord_find_predecessor_stale_successor :
    find_predecessor_code net6 10 103 5 = some ⟨90, 90⟩
    ∧ modRangeContains (90 + 1) ((fingerSucc node90 1).number + 1) NODES 103
        = false
    ∧ find_predecessor_spec net6 10 103 8 = some ⟨102, 102⟩
    ∧ modRangeContains (102 + 1) ((fingerSucc node102 1).number + 1) NODES 103
        = true := by
  refine ⟨by decide, by decide, by decide, by decide⟩

/-- Claim C3, evaluated at the failing input: for bootstrap port 43500 the
joining node derives ring id 51 for its peer (string with a space,
`'127.0.0.0 43500'`), while the peer derived 26 for itself (no space,
`'127.0.0.043500'`); identifier derivation is NOT a function of the
endpoint alone. -/
theorem chord_identifier_derivation_mismatch :
    derive_self_node 43500 = 26
    ∧ derive_peer_node 43500 = 51
    ∧ derive_peer_node 43500 ≠ derive_self_node 43500 := by
  refine ⟨by decide, by decide, by decide⟩

/-- Counterexample to C2 as stated: dispatching `update_finger_table` with
both arguments missing makes the node print and call `exit()`
(`Outcome.exits`) — the process terminates and no error result reaches the
caller. -/
theorem chord_dispatch_missing_arg_cex :
    dispatch_rpc net6 node10 "update_finger_table" none none 5 =
      (Outcome.exits, net6) := rfl

/-- Claim C2 (amended): a missing required argument never corrupts local
state, but only `populate` and `query` report an error string to the
caller; `update_finger_table`, `update_your_predecessor`, `find_successor`
and `closest_preceding_finger` print a message and call `exit()`, sending
nothing. -/
theorem chord_dispatch_missing_args (net : Network) (st : NodeState)
    (a1 a2 : Option Val) (fuel : Nat) :
    ((a1 = none ∨ a2 = none) →
      dispatch_rpc net st "update_finger_table" a1 a2 fuel =
        (Outcome.exits, net))
    ∧ dispatch_rpc net st "update_your_predecessor" none a2 fuel =
        (Outcome.exits, net)
    ∧ dispatch_rpc net st "find_successor" none a2 fuel =
        (Outcome.exits, net)
    ∧ dispatch_rpc net st "closest_preceding_finger" none a2 fuel =
        (Outcome.exits, net)
    ∧ dispatch_rpc net st "populate" none a2 fuel =
        (Outcome.ret
          (some (Val.str "The row to populate is either missing or incorrect.")),
         net)
    ∧ ((a1 = none ∨ a2 = none) →
      dispatch_rpc net st "query" a1 a2 fuel =
        (Outcome.ret
          (some (Val.str "Pass the player id and year to find the row.")),
         net)) := by
  refine ⟨?_, rfl, rfl, rfl, rfl, ?_⟩
  · rintro (rfl | rfl)
    · rfl
    · cases a1 <;> rfl
  · rintro (rfl | rfl)
    · rfl
    · cases a1 <;> rfl

/-- Witness for C2's amended claim: a `query` with a missing second
argument answers with the error string and the ring is untouched. -/
theorem chord_dispatch_missing_args_witness :
    dispatch_rpc net6 node30 "query" (some (Val.str "82")) none 5 =
      (Outcome.ret
        (some (Val.str "Pass the player id and year to find the row.")),
       net6) :=
  (chord_dispatch_missing_args net6 node30 (some (Val.str "82")) none 5).2.2.2.2.2
    (Or.inr rfl)

/-- Counterexample to C4 as stated: dispatching
`('find_predecessor', 103)` on node 10 of the six-node ring ends in an
uncaught `TypeError` (`103['number']`), while running the
`find_predecessor` algorithm locally on 103 returns a NodeRef. -/
theorem chord_dispatch_find_predecessor_cex :
    dispatch_rpc net6 node10 "find_predecessor" (some (Val.num 103)) none 5 =
      (Outcome.abnormal, net6)
    ∧ find_predecessor_code net6 10 103 5 = some ⟨90, 90⟩ :=
  ⟨rfl, by decide⟩

/-- Claim C4 (amended): the `find_predecessor` RPC takes a NodeRef, not an
identifier.  With an integer argument the dispatch raises
(`arg1['number']` on an int); with a NodeRef whose number equals the local
node's id — the only form the source ever sends, a joining node asking its
successor — it returns the local `predecessor` attribute, untouched
network. -/
theorem chord_dispatch_find_predecessor_ref (net : Network) (st : NodeState)
    (a2 : Option Val) (fuel : Nat) :
    (∀ id : Nat,
      dispatch_rpc net st "find_predecessor" (some (Val.num id)) a2 fuel =
        (Outcome.abnormal, net))
    ∧ ∀ r : NodeRef, r.number = st.node →
        dispatch_rpc net st "find_predecessor" (some (Val.ref r)) a2 fuel =
          (Outcome.ret st.predecessor, net) := by
  refine ⟨fun id => rfl, fun r hr => ?_⟩
  have hred : dispatch_rpc net st "find_predecessor" (some (Val.ref r)) a2 fuel =
      if r.number = st.node then (Outcome.ret st.predecessor, net)
      else (Outcome.abnormal, net) := rfl
  rw [hred, if_pos hr]

/-- Witness for C4's amended claim: node 30 asked with its own reference
returns its predecessor, node 10. -/
theorem chord_dispatch_find_predecessor_ref_witness :
    dispatch_rpc net6 node30 "find_predecessor" (some (Val.ref ⟨30, 30⟩))
      none 5 = (Outcome.ret node30.predecessor, net6) :=
  (chord_dispatch_find_predecessor_ref net6 node30 none 5).2 ⟨30, 30⟩ rfl

/-- Claim C8, evaluated at the failing input: in the six-node ring the row
`['82', 'x', 'y', '2016']` (key string `'822016'`, ring bucket 103) is
populated through node 10 and lands on node 94; the same key queried
through node 98 is routed to node 10 and answers "Data is not available.",
while the same query through node 10 still finds the row — the put/get
round-trip does NOT hold regardless of the serving node, because
`find_predecessor` (see `chord_find_predecessor_stale_successor`) resolves
bucket 103 to different owners from different starting nodes. -/
theorem chord_put_get_roundtrip_broken :
    (save_data net6 10 row82 5).map Prod.fst = some "Node 94 saved the row"
    ∧ query_data net6saved 10 "82" "2016" 5 =
        some (QueryResult.found row82)
    ∧ query_data net6saved 98 "82" "2016" 5 = some QueryResult.notAvailable
    ∧ QueryResult.notAvailable ≠ QueryResult.found row82 := by
  refine ⟨by decide, by decide, by decide, by decide⟩
